import Mathlib

/-
  Verification of the Pingzilla background monitoring engine
  (src/src-tauri/src/lib.rs) against its specification.

  Shallow embedding conventions:
  * timestamps (chrono DateTime<Utc>) are modelled as Int seconds since epoch;
    chrono Duration::minutes(m) is m*60 seconds, Duration::hours(24) is 86400;
  * f64 latency values are modelled as rationals (the spec's example values are
    exact in f64, so no rounding behaviour is lost);
  * HashMap<String, V> is modelled as a function String -> Option V
    (HashMap::insert / remove / get become pointwise updates / lookups);
  * VecDeque<T> is modelled as List T (push_back = append at tail,
    pop_front = drop at head);
  * Result<(), String> together with the &mut state the Tauri commands mutate is
    modelled as (Except String Unit) x AppState; the error path of a command
    returns the state unchanged, exactly as the Rust early return does;
  * network and clock effects (TCP connects, ICMP, Utc::now()) are injected as
    explicit arguments, since they are external to the logic under test.
-/

namespace Pingzilla

/-- Method used to measure ping latency (enum PingMethod). -/
inductive PingMethod where
  | Icmp
  | TcpDns
  | TcpHttps
  | TcpHttp
deriving DecidableEq, Repr

/-- A single ping measurement (struct PingResult). -/
structure PingResult where
  timestamp : Int
  latency_ms : Option ℚ
  target : String
  method : Option PingMethod
deriving DecidableEq, Repr

/-- Statistics for a target (struct PingStatistics). -/
structure PingStatistics where
  min_ms : Option ℚ
  max_ms : Option ℚ
  avg_ms : Option ℚ
  packet_loss_pct : ℚ
  total_pings : Nat
  failed_pings : Nat
deriving DecidableEq, Repr

/-- Site monitor configuration (struct SiteMonitor). -/
structure SiteMonitor where
  url : String
  name : Option String
  enabled : Bool
deriving DecidableEq, Repr

/-- Site status from monitoring check (struct SiteStatus). -/
structure SiteStatus where
  url : String
  is_up : Bool
  latency_ms : Option ℚ
  last_check : Int
  last_down : Option Int
deriving DecidableEq, Repr

/-- Network change type for VPN drop detection (enum NetworkChangeType). -/
inductive NetworkChangeType where
  | IpChanged
  | CountryChanged
  | IspChanged
  | Initial
deriving DecidableEq, Repr

/-- User's public IP info (struct IpInfo). -/
structure IpInfo where
  ip : String
  country : String
  country_code : String
  city : Option String
  isp : Option String
deriving DecidableEq, Repr

/-- Network change event (struct NetworkChangeEvent). -/
structure NetworkChangeEvent where
  change_type : NetworkChangeType
  previous : Option IpInfo
  current : IpInfo
  timestamp : Int
  is_expected : Bool
deriving DecidableEq, Repr

/-- VPN protection settings (struct VpnProtectionSettings). -/
structure VpnProtectionSettings where
  enabled : Bool
  check_interval_secs : Nat
  alert_on_country_change : Bool
  alert_on_ip_change : Bool
  expected_country : Option String
deriving DecidableEq, Repr

/-- The fields of AppState that the target-registry and persistence commands
touch: ping_history, targets, primary_target, notification_threshold_ms,
site_monitors, vpn_settings, ping_interval_secs. -/
structure AppState where
  ping_history : String → Option (List PingResult)
  targets : List String
  primary_target : String
  notification_threshold_ms : Nat
  site_monitors : List SiteMonitor
  vpn_settings : VpnProtectionSettings
  ping_interval_secs : Nat

/-- Tauri command add_target: if the target is not already present, push it to
the target list and insert an empty history deque; always returns Ok(()). -/
def add_target (target : String) (s : AppState) : Except String Unit × AppState :=
  if target ∈ s.targets then
    (.ok (), s)
  else
    (.ok (), { s with
      targets := s.targets ++ [target],
      ping_history := fun t => if t = target then some [] else s.ping_history t })

/-- Tauri command remove_target: reject when at most one target remains;
otherwise retain all entries different from the removed one, drop its history
entry, and if the primary equals the removed target reassign the primary to
the first remaining entry (empty string when none remains). -/
def remove_target (target : String) (s : AppState) : Except String Unit × AppState :=
  if s.targets.length ≤ 1 then
    (.error "Cannot remove the last target", s)
  else
    let targets := s.targets.filter (fun t => t != target)
    let ping_history := fun t => if t = target then none else s.ping_history t
    let primary_target :=
      if s.primary_target = target then (targets.head?.getD "") else s.primary_target
    (.ok (), { s with targets, ping_history, primary_target })

/-- In a duplicate-free list of length at least two there is a member different
from any given value. -/
theorem exists_other_mem {α : Type} {l : List α} (hnd : l.Nodup)
    (hlen : 2 ≤ l.length) (x : α) : ∃ y, y ∈ l ∧ y ≠ x := by
  rcases l with _ | ⟨a, _ | ⟨b, rest⟩⟩
  · simp at hlen
  · simp at hlen
  · have hab : a ≠ b := by
      have h1 := (List.nodup_cons.mp hnd).1
      intro h
      exact h1 (h ▸ List.mem_cons_self b rest)
    by_cases hax : a = x
    · refine ⟨b, List.mem_cons_of_mem _ (List.mem_cons_self _ _), ?_⟩
      intro hbx
      exact hab (by rw [hax, hbx])
    · exact ⟨a, List.mem_cons_self _ _, hax⟩

/-- The head of a nonempty list, with any default, is a member of the list. -/
theorem head_getD_mem {α : Type} {l : List α} (h : l ≠ []) (d : α) :
    l.head?.getD d ∈ l := by
  cases l with
  | nil => exact absurd rfl h
  | cons a t => simp

/-- C1: on a target set with at least 2 members, remove_target on a non-primary
member succeeds and leaves the primary unchanged; remove_target on the primary
succeeds and reassigns the primary to a remaining member (different from the
removed one); remove_target when only one target remains returns an error and
leaves the whole state unchanged; and in every case the primary target stays a
member of the target set. -/
theorem remove_target_spec (s : AppState) (target : String)
    (hnd : s.targets.Nodup) (hp : s.primary_target ∈ s.targets) :
    (2 ≤ s.targets.length → target ∈ s.targets → target ≠ s.primary_target →
      (remove_target target s).1 = .ok () ∧
      (remove_target target s).2.primary_target = s.primary_target) ∧
    (2 ≤ s.targets.length → target = s.primary_target →
      (remove_target target s).1 = .ok () ∧
      (remove_target target s).2.primary_target ∈ (remove_target target s).2.targets ∧
      (remove_target target s).2.primary_target ≠ target) ∧
    (s.targets.length = 1 →
      (∃ e, (remove_target target s).1 = .error e) ∧ (remove_target target s).2 = s) ∧
    (remove_target target s).2.primary_target ∈ (remove_target target s).2.targets := by
  have hhead : ∀ (l : List String), l ≠ [] → l.head?.getD "" ∈ l := fun l h =>
    head_getD_mem h ""
  refine ⟨?_, ?_, ?_, ?_⟩
  · intro hlen hmem hne
    have hcond : ¬ s.targets.length ≤ 1 := by omega
    refine ⟨by simp [remove_target, hcond], ?_⟩
    simp [remove_target, hcond, (Ne.symm hne : s.primary_target ≠ target)]
  · intro hlen heq
    have hcond : ¬ s.targets.length ≤ 1 := by omega
    obtain ⟨y, hy, hyne⟩ := exists_other_mem hnd hlen target
    have hyf : y ∈ s.targets.filter (fun t => t != target) :=
      List.mem_filter.mpr ⟨hy, by simp [hyne]⟩
    have hne : s.targets.filter (fun t => t != target) ≠ [] :=
      List.ne_nil_of_mem hyf
    have hmemf : (s.targets.filter (fun t => t != target)).head?.getD "" ∈
        s.targets.filter (fun t => t != target) := hhead _ hne
    refine ⟨by simp [remove_target, hcond], ?_, ?_⟩
    · simpa [remove_target, hcond, heq.symm] using hmemf
    · have := (List.mem_filter.mp hmemf).2
      simp only [bne_iff_ne, ne_eq, decide_eq_true_eq] at this
      simpa [remove_target, hcond, heq.symm] using this
  · intro hlen
    have hcond : s.targets.length ≤ 1 := by omega
    exact ⟨⟨"Cannot remove the last target", by simp [remove_target, hcond]⟩,
      by simp [remove_target, hcond]⟩
  · by_cases hle : s.targets.length ≤ 1
    · simpa [remove_target, hle] using hp
    · by_cases hpt : s.primary_target = target
      · obtain ⟨y, hy, hyne⟩ := exists_other_mem hnd (by omega) target
        have hyf : y ∈ s.targets.filter (fun t => t != target) :=
          List.mem_filter.mpr ⟨hy, by simp [hyne]⟩
        have hne : s.targets.filter (fun t => t != target) ≠ [] :=
          List.ne_nil_of_mem hyf
        simpa [remove_target, hle, hpt] using hhead _ hne
      · have hpf : s.primary_target ∈ s.targets.filter (fun t => t != target) :=
          List.mem_filter.mpr ⟨hp, by simp [hpt]⟩
        simpa [remove_target, hle, hpt] using hpf

/-- A concrete two-target state used to instantiate the registry theorems. -/
def sampleState : AppState where
  ping_history := fun t => if t = "1.1.1.1" ∨ t = "8.8.8.8" then some [] else none
  targets := ["1.1.1.1", "8.8.8.8"]
  primary_target := "1.1.1.1"
  notification_threshold_ms := 400
  site_monitors := []
  vpn_settings := ⟨true, 60, true, true, none⟩
  ping_interval_secs := 10

/-- Witness for C1: removing the non-primary member "8.8.8.8" from the concrete
two-target state succeeds and keeps "1.1.1.1" as the primary. -/
theorem remove_target_spec_witness :
    (remove_target "8.8.8.8" sampleState).1 = .ok () ∧
    (remove_target "8.8.8.8" sampleState).2.primary_target = "1.1.1.1" :=
  (remove_target_spec sampleState "8.8.8.8" (by decide) (by decide)).1
    (by decide) (by decide) (by decide)

/-- C9: add_target on a target already present returns success and leaves the
state (target list and ping-history map included) unchanged; add_target always
returns success; and adding the same target twice is the same as adding it
once. -/
theorem add_target_spec (s : AppState) (target : String) :
    (target ∈ s.targets → add_target target s = (.ok (), s)) ∧
    (add_target target s).1 = .ok () ∧
    add_target target (add_target target s).2 = add_target target s := by
  have add_mem : ∀ (s2 : AppState), target ∈ s2.targets → add_target target s2 = (.ok (), s2) :=
    fun s2 h => by simp [add_target, h]
  have hfst : (add_target target s).1 = .ok () := by
    by_cases h : target ∈ s.targets <;> simp [add_target, h]
  refine ⟨add_mem s, hfst, ?_⟩
  have hmem : target ∈ (add_target target s).2.targets := by
    by_cases h : target ∈ s.targets <;> simp [add_target, h]
  calc add_target target (add_target target s).2
      = (.ok (), (add_target target s).2) := add_mem _ hmem
    _ = ((add_target target s).1, (add_target target s).2) := by rw [hfst]
    _ = add_target target s := rfl

/-- Witness for C9: adding the already-present target "1.1.1.1" to the concrete
two-target state returns Ok and leaves the state unchanged. -/
theorem add_target_spec_witness :
    add_target "1.1.1.1" sampleState = (.ok (), sampleState) :=
  (add_target_spec sampleState "1.1.1.1").1 (by decide)

/-- The history cap hardcoded in start_unified_background_service:
`while target_history.len() > 8640 { target_history.pop_front(); }`. -/
def HISTORY_CAP : Nat := 8640

/-- One append into a target's history inside the unified background service
loop: push_back the new result, then pop from the front while the length
exceeds the cap. -/
def push_history (h : List PingResult) (r : PingResult) : List PingResult :=
  if HISTORY_CAP < (h ++ [r]).length then
    (h ++ [r]).drop ((h ++ [r]).length - HISTORY_CAP)
  else h ++ [r]

/-- The suffix of the last n elements of a list. -/
def keepLast (n : Nat) (l : List α) : List α := l.drop (l.length - n)

theorem keepLast_of_le {l : List α} {n : Nat} (h : l.length ≤ n) :
    keepLast n l = l := by
  unfold keepLast
  rw [Nat.sub_eq_zero_of_le h, List.drop_zero]

theorem keepLast_length_le (n : Nat) (l : List α) : (keepLast n l).length ≤ n := by
  unfold keepLast
  rw [List.length_drop]
  omega

theorem push_history_eq_keepLast (h : List PingResult) (r : PingResult) :
    push_history h r = keepLast HISTORY_CAP (h ++ [r]) := by
  unfold push_history keepLast
  by_cases hc : HISTORY_CAP < (h ++ [r]).length
  · rw [if_pos hc]
  · rw [if_neg hc, Nat.sub_eq_zero_of_le (by omega), List.drop_zero]

theorem keepLast_keepLast_append (n : Nat) (l l2 : List α) :
    keepLast n (keepLast n l ++ l2) = keepLast n (l ++ l2) := by
  rcases Nat.le_total l.length n with hle | hge
  · rw [keepLast_of_le hle]
  · unfold keepLast
    have h1 : l.length - n ≤ l.length := by omega
    have hdl : (l.drop (l.length - n)).length = n := by
      rw [List.length_drop]; omega
    have hidx : (l.drop (l.length - n) ++ l2).length - n = l2.length := by
      rw [List.length_append, hdl]; omega
    have hidx2 : (l ++ l2).length - n = l2.length + (l.length - n) := by
      rw [List.length_append]; omega
    rw [hidx, ← List.drop_append_of_le_length h1, List.drop_drop, hidx2,
      Nat.add_comm]

theorem foldl_push_history (l : List PingResult) :
    ∀ (h : List PingResult), h.length ≤ HISTORY_CAP →
      List.foldl push_history h l = keepLast HISTORY_CAP (h ++ l) := by
  induction l with
  | nil => intro h hle; simp [keepLast_of_le hle]
  | cons r rest ih =>
    intro h hle
    rw [List.foldl_cons, ih (push_history h r)
      (by rw [push_history_eq_keepLast]; exact keepLast_length_le _ _)]
    rw [push_history_eq_keepLast, keepLast_keepLast_append]
    simp

/-- C2: one append never leaves the history longer than the cap (8640), and
appending N samples with N > 8640 into an empty history retains exactly the
most recent 8640 samples in their original order (the oldest are evicted from
the front). -/
theorem push_history_spec (h : List PingResult) (r : PingResult)
    (l : List PingResult) (hl : HISTORY_CAP < l.length) :
    (push_history h r).length ≤ HISTORY_CAP ∧
    List.foldl push_history [] l = l.drop (l.length - HISTORY_CAP) ∧
    (List.foldl push_history [] l).length = HISTORY_CAP := by
  have hfold : List.foldl push_history [] l = l.drop (l.length - HISTORY_CAP) := by
    rw [foldl_push_history l [] (by simp)]
    simp [keepLast]
  refine ⟨?_, hfold, ?_⟩
  · rw [push_history_eq_keepLast]
    exact keepLast_length_le _ _
  · rw [hfold, List.length_drop]
    omega

/-- A concrete ping sample used in witnesses. -/
def samplePing : PingResult := ⟨0, none, "1.1.1.1", none⟩

/-- Witness for C2: instantiated at a run of 8641 samples (one more than the
cap). -/
theorem push_history_spec_witness :
    HISTORY_CAP < (List.replicate 8641 samplePing).length ∧
    ((push_history [] samplePing).length ≤ HISTORY_CAP ∧
      List.foldl push_history [] (List.replicate 8641 samplePing) =
        (List.replicate 8641 samplePing).drop
          ((List.replicate 8641 samplePing).length - HISTORY_CAP) ∧
      (List.foldl push_history [] (List.replicate 8641 samplePing)).length =
        HISTORY_CAP) :=
  ⟨by rw [List.length_replicate]; norm_num [HISTORY_CAP],
    push_history_spec [] samplePing (List.replicate 8641 samplePing)
      (by rw [List.length_replicate]; norm_num [HISTORY_CAP])⟩

/-- Saved data structure for persistence (struct SavedData). The JSON layer is
serde-derived on exactly these fields and is injective on them, so persistence
is modelled as passing the SavedData value itself. -/
structure SavedData where
  history : String → Option (List PingResult)
  targets : List String
  primary_target : String
  notification_threshold_ms : Nat
  site_monitors : List SiteMonitor
  vpn_settings : VpnProtectionSettings
  ping_interval_secs : Nat

/-- save_history: builds the SavedData document that is written to
history_v2.json. Note the notification_threshold_ms field is the literal 400;
save_history takes no threshold argument and save_history_async passes none. -/
def save_history (history : String → Option (List PingResult))
    (targets : List String) (primary_target : String)
    (site_monitors : List SiteMonitor) (vpn_settings : VpnProtectionSettings)
    (ping_interval_secs : Nat) : SavedData :=
  { history := history
    targets := targets
    primary_target := primary_target
    notification_threshold_ms := 400
    site_monitors := site_monitors
    vpn_settings := vpn_settings
    ping_interval_secs := ping_interval_secs }

/-- load_history, v2 path (the document parses as SavedData): filter every
target's samples to those with timestamp strictly newer than now minus 24
hours, and return the tuple (filtered history, targets, primary target,
site monitors, vpn settings, ping interval). The stored
notification_threshold_ms is not part of the returned tuple. -/
def load_history (data : SavedData) (now : Int) :
    (String → Option (List PingResult)) × List String × String ×
      List SiteMonitor × VpnProtectionSettings × Nat :=
  let cutoff := now - 24 * 3600
  (fun t => (data.history t).map (List.filter (fun r => cutoff < r.timestamp)),
    data.targets, data.primary_target, data.site_monitors, data.vpn_settings,
    data.ping_interval_secs)

/-- The engine state reconstructed in run(): load_history's results fill
ping_history, targets, primary_target, site_monitors, vpn_settings and
ping_interval_secs, while the remaining fields, notification_threshold_ms
included, come from AppState's Default implementation (threshold 400). -/
def round_trip (s : AppState) (now : Int) : AppState :=
  let data := save_history s.ping_history s.targets s.primary_target
    s.site_monitors s.vpn_settings s.ping_interval_secs
  let loaded := load_history data now
  { ping_history := loaded.1
    targets := loaded.2.1
    primary_target := loaded.2.2.1
    notification_threshold_ms := 400
    site_monitors := loaded.2.2.2.1
    vpn_settings := loaded.2.2.2.2.1
    ping_interval_secs := loaded.2.2.2.2.2 }

/-- A populated engine snapshot whose notification threshold is 500 rather
than the default 400. -/
def thresholdState : AppState where
  ping_history := fun t => if t = "1.1.1.1" then some [⟨-10, some 20, "1.1.1.1", some .Icmp⟩] else none
  targets := ["1.1.1.1"]
  primary_target := "1.1.1.1"
  notification_threshold_ms := 500
  site_monitors := []
  vpn_settings := ⟨true, 60, true, true, none⟩
  ping_interval_secs := 10

/-- Counterexample to C3: the save/load round trip of a populated snapshot
whose notification threshold is 500 recovers threshold 400 (save_history
hardcodes 400 and load_history discards the stored value), so the recovered
settings are not identical to the snapshot's. -/
theorem round_trip_counterexample :
    (round_trip thresholdState 0).notification_threshold_ms ≠
      thresholdState.notification_threshold_ms := by
  decide

/-- C3 as amended: the save/load round trip recovers identical targets,
primary target, site monitors, VPN settings and ping interval; every target's
history is restricted to the samples strictly newer than the 24-hour cutoff;
but the notification threshold is not round-tripped: the recovered value is
the default 400 whatever the snapshot held. -/
theorem round_trip_spec (s : AppState) (now : Int) :
    (round_trip s now).targets = s.targets ∧
    (round_trip s now).primary_target = s.primary_target ∧
    (round_trip s now).site_monitors = s.site_monitors ∧
    (round_trip s now).vpn_settings = s.vpn_settings ∧
    (round_trip s now).ping_interval_secs = s.ping_interval_secs ∧
    (round_trip s now).notification_threshold_ms = 400 ∧
    ∀ t, (round_trip s now).ping_history t =
      (s.ping_history t).map (List.filter (fun r => now - 24 * 3600 < r.timestamp)) := by
  refine ⟨rfl, rfl, rfl, rfl, rfl, rfl, fun t => rfl⟩

/-- Site-check cadence in ticks inside start_unified_background_service:
`let site_check_interval = if last_interval_secs == 10 { 6 } else { 2 };`. -/
def site_check_interval (last_interval_secs : Nat) : Nat :=
  if last_interval_secs = 10 then 6 else 2

/-- VPN/IP-check cadence in ticks:
`let vpn_check_interval = if last_interval_secs == 10 { 6 } else { 2 };`. -/
def vpn_check_interval (last_interval_secs : Nat) : Nat :=
  if last_interval_secs = 10 then 6 else 2

/-- VPN/IP-check phase offset in ticks:
`let vpn_offset = if last_interval_secs == 10 { 3 } else { 1 };`. -/
def vpn_offset (last_interval_secs : Nat) : Nat :=
  if last_interval_secs = 10 then 3 else 1

/-- Persistence cadence in ticks:
`let save_interval = if last_interval_secs == 10 { 30 } else { 10 };`. -/
def save_interval (last_interval_secs : Nat) : Nat :=
  if last_interval_secs = 10 then 30 else 10

/-- Modelled from the spec: the claimed cadence formula
K = round(target_seconds / interval), rounding half up, which the source
does not contain (it special-cases interval 10 against every other value). -/
def spec_cadence (target_seconds interval : Nat) : Nat :=
  (2 * target_seconds + interval) / (2 * interval)

/-- Counterexample to C4: at the valid configured interval of 5 seconds the
code's site-check cadence is 2 ticks, not round(60/5) = 12 ticks, so site
checks run every 10 seconds rather than roughly every 60. -/
theorem cadence_counterexample :
    5 ≤ 5 ∧ 5 ≤ 120 ∧ site_check_interval 5 ≠ spec_cadence 60 5 ∧
      save_interval 5 ≠ spec_cadence 300 5 := by
  decide

/-- C4 as amended: the cadences are special-cased on the interval rather than
computed by K = round(target_seconds / interval): at a 10-second interval they
are 6 (site/identity) and 30 (persistence), which equal round(60/10) and
round(300/10); at every other interval they are the fixed constants 2 and 10,
which do not in general follow the round formula (at the valid interval 5 the
site cadence is 2 rather than round(60/5) = 12 — the counterexample — so site
checks run every 10 seconds there, not roughly every 60). The identity
check's phase offset (3 at a 10-second interval, 1 otherwise) is nonzero and
smaller than the site cadence, so an identity-check tick never coincides with
a site-check tick. -/
theorem cadence_spec (i tick : Nat)
    (h : tick % vpn_check_interval i = vpn_offset i) :
    site_check_interval 10 = 6 ∧ spec_cadence 60 10 = 6 ∧
    save_interval 10 = 30 ∧ spec_cadence 300 10 = 30 ∧
    (i ≠ 10 → site_check_interval i = 2 ∧ save_interval i = 10) ∧
    tick % site_check_interval i ≠ 0 := by
  refine ⟨by decide, by decide, by decide, by decide,
    fun hi => by simp [site_check_interval, save_interval, hi], ?_⟩
  have hsv : site_check_interval i = vpn_check_interval i := rfl
  rw [hsv, h]
  by_cases hi : i = 10 <;> simp [vpn_offset, hi]

/-- Witness for C4's amended theorem: at a 10-second interval, tick 3 is an
identity-check tick (3 mod 6 = 3) and is not a site-check tick. -/
theorem cadence_spec_witness :
    site_check_interval 10 = 6 ∧ spec_cadence 60 10 = 6 ∧
    save_interval 10 = 30 ∧ spec_cadence 300 10 = 30 ∧
    (10 ≠ 10 → site_check_interval 10 = 2 ∧ save_interval 10 = 10) ∧
    3 % site_check_interval 10 ≠ 0 :=
  cadence_spec 10 3 (by decide)

/-- Outcome of the TCP connect attempt inside check_site, injected because the
network and the clock are external: whether the 5-second connect succeeded,
the elapsed wall-clock milliseconds, and the Utc::now() value at the check. -/
structure SiteCheckOutcome where
  ok : Bool
  elapsed_ms : ℚ
  now : Int
deriving DecidableEq, Repr

/-- check_site: on a successful connect, status is up with the measured
latency and no last_down; on any failure, status is down with no latency and
last_down set to the time of this check. -/
def check_site (url : String) (o : SiteCheckOutcome) : SiteStatus :=
  if o.ok then
    { url := url, is_up := true, latency_ms := some o.elapsed_ms,
      last_check := o.now, last_down := none }
  else
    { url := url, is_up := false, latency_ms := none,
      last_check := o.now, last_down := some o.now }

/-- The body of check_all_sites for one enabled monitor: read the previous
status (a site never seen counts as up), run check_site, report changed when
the up/down state flipped, keep the previous last_down when the site is now
up, and notify exactly on a was_up && !is_up transition. Returns
(stored status, changed, notified). -/
def check_all_sites_step (prev : Option SiteStatus) (url : String)
    (o : SiteCheckOutcome) : SiteStatus × Bool × Bool :=
  let was_up := (prev.map SiteStatus.is_up).getD true
  let status := check_site url o
  let changed := was_up != status.is_up
  let final_status :=
    if status.is_up then
      { status with last_down := prev.bind SiteStatus.last_down }
    else status
  let notified := was_up && !status.is_up
  (final_status, changed, notified)

/-- A sequence of sweeps over one monitor: each sweep stores its status, which
becomes the previous status of the next sweep. Returns the per-sweep
(status, notified) pairs in order. -/
def run_site_checks (url : String) :
    Option SiteStatus → List SiteCheckOutcome → List (SiteStatus × Bool)
  | _, [] => []
  | prev, o :: rest =>
    let r := check_all_sites_step prev url o
    (r.1, r.2.2) :: run_site_checks url (some r.1) rest

/-- The check sequence up, up, down, down, up at times 1..5 used by C5. -/
def c5Outcomes : List SiteCheckOutcome :=
  [⟨true, 20, 1⟩, ⟨true, 25, 2⟩, ⟨false, 0, 3⟩, ⟨false, 0, 4⟩, ⟨true, 30, 5⟩]

/-- Counterexample to C5: on up, up, down, down, up the code updates last_down
on the second down as well — after the fourth check last_down is the fourth
check's time (4), not the preserved down-transition time (3). -/
theorem site_monitor_counterexample :
    ((run_site_checks "site" none c5Outcomes).map
        (fun p => (p.1.last_down, p.2))) =
      [(none, false), (none, false), (some 3, true), (some 4, false),
        (some 4, false)] ∧
    (some (4 : Int)) ≠ some 3 := by
  decide

/-- C5 as amended: over the check sequence up, up, down, down, up exactly one
site-down notification is sent, on the first down (the was_up-and-now-down
transition); last_down is set to the check's own time on every down check, so
the subsequent down check overwrites it (t4 replaces t3) rather than
preserving it; and the field is retained, not cleared, when the site recovers
to up. -/
theorem site_monitor_spec (t1 t2 t3 t4 t5 : Int) (l1 l2 l5 : ℚ) :
    (run_site_checks "site" none
        [⟨true, l1, t1⟩, ⟨true, l2, t2⟩, ⟨false, 0, t3⟩, ⟨false, 0, t4⟩,
          ⟨true, l5, t5⟩]).map (fun p => (p.1.last_down, p.2)) =
      [(none, false), (none, false), (some t3, true), (some t4, false),
        (some t4, false)] ∧
    ((run_site_checks "site" none
        [⟨true, l1, t1⟩, ⟨true, l2, t2⟩, ⟨false, 0, t3⟩, ⟨false, 0, t4⟩,
          ⟨true, l5, t5⟩]).filter (fun p => p.2)).length = 1 := by
  constructor
  · rfl
  · rfl

/-- C10: a site with no previously recorded status is treated as having been
up, so if its very first check fails, the step reports changed = true and
sends a site-down notification on that first observation. -/
theorem first_check_down_spec (url : String) (elapsed : ℚ) (now : Int) :
    (check_all_sites_step none url ⟨false, elapsed, now⟩).2.1 = true ∧
    (check_all_sites_step none url ⟨false, elapsed, now⟩).2.2 = true ∧
    (check_all_sites_step none url ⟨false, elapsed, now⟩).1.is_up = false ∧
    (check_all_sites_step none url ⟨false, elapsed, now⟩).1.last_down = some now := by
  refine ⟨rfl, rfl, rfl, rfl⟩

/-- Tauri command get_statistics over one target's history: keep samples with
timestamp strictly after now minus the window; count total and failed (no
latency value) over the kept samples; fold min/max over the samples that have
a latency (the source folds f64::min from +infinity and f64::max from
-infinity, which on a nonempty list is the fold from its first element,
modelled here on rationals); average is sum over count; packet loss is
failed/total*100, or 0 when total is 0. -/
def get_statistics (history : List PingResult) (now : Int) (minutes : Nat) :
    PingStatistics :=
  let cutoff := now - (minutes : Int) * 60
  let pings := history.filter (fun p => cutoff < p.timestamp)
  let total_pings := pings.length
  let failed_pings := (pings.filter (fun p => p.latency_ms.isNone)).length
  let successful := pings.filterMap (fun p => p.latency_ms)
  let mma : Option ℚ × Option ℚ × Option ℚ :=
    match successful with
    | [] => (none, none, none)
    | x :: xs =>
      (some (xs.foldl min x), some (xs.foldl max x),
        some (successful.sum / (successful.length : ℚ)))
  let packet_loss_pct : ℚ :=
    if 0 < total_pings then (failed_pings : ℚ) / (total_pings : ℚ) * 100 else 0
  ⟨mma.1, mma.2.1, mma.2.2, packet_loss_pct, total_pings, failed_pings⟩

/-- C6: the statistics computation keeps exactly the samples strictly newer
than now minus the window; failed never exceeds total; an empty history and a
window whose only sample sits exactly on the cutoff (and is therefore
excluded) both yield min = max = avg = none, loss 0, total = failed = 0; and
the window holding 50 ms, a failure, and 150 ms yields min 50, max 150,
avg 100, total 3, failed 1, and packet loss 100/3, within 0.01 of 33.33. -/
theorem get_statistics_spec (h : List PingResult) (now : Int) (m : Nat) :
    (get_statistics h now m).failed_pings ≤ (get_statistics h now m).total_pings ∧
    (get_statistics h now m).total_pings =
      (h.filter (fun p => now - (m : Int) * 60 < p.timestamp)).length ∧
    get_statistics [] now m = ⟨none, none, none, 0, 0, 0⟩ ∧
    get_statistics [⟨-300, some 50, "t", some .Icmp⟩] 0 5 =
      ⟨none, none, none, 0, 0, 0⟩ ∧
    get_statistics [⟨-30, some 50, "t", some .Icmp⟩, ⟨-20, none, "t", none⟩,
        ⟨-10, some 150, "t", some .Icmp⟩] 0 5 =
      ⟨some 50, some 150, some 100, 100 / 3, 3, 1⟩ ∧
    |(get_statistics [⟨-30, some 50, "t", some .Icmp⟩, ⟨-20, none, "t", none⟩,
        ⟨-10, some 150, "t", some .Icmp⟩] 0 5).packet_loss_pct - 3333 / 100| <
      1 / 100 := by
  have h5 : get_statistics [⟨-30, some 50, "t", some .Icmp⟩,
      ⟨-20, none, "t", none⟩, ⟨-10, some 150, "t", some .Icmp⟩] 0 5 =
      ⟨some 50, some 150, some 100, 100 / 3, 3, 1⟩ := by
    simp only [get_statistics, List.filter, List.filterMap]
    norm_num
  refine ⟨List.length_filter_le _ _, rfl, rfl, ?_, h5, ?_⟩
  · simp only [get_statistics, List.filter, List.filterMap]
    norm_num
  · rw [congrArg PingStatistics.packet_loss_pct h5, abs_sub_lt_iff]
    constructor <;> norm_num

/-- The high-latency notification gate inside start_unified_background_service:
notify when there is no prior notification or strictly more than 60 whole
seconds have elapsed since it; on notify, record the send time. Returns
(should_notify, updated last_notification). -/
def high_latency_gate (last_notification : Option Int) (now : Int) :
    Bool × Option Int :=
  let should_notify : Bool :=
    match last_notification with
    | some last => decide (60 < now - last)
    | none => true
  (should_notify, if should_notify then some now else last_notification)

/-- Counterexample to C7: with a prior send at time 0, an attempt at time 60
has now minus last_sent equal to the 60-second cooldown — at least the
cooldown, so the claim says it fires — but the code (strictly greater than 60)
suppresses it. -/
theorem high_latency_gate_counterexample :
    (high_latency_gate (some 0) 60).1 = false ∧ (60 : Int) - 0 ≥ 60 := by
  decide

/-- C7 as amended: the high-latency notification fires iff there was no prior
send or now minus the last-sent timestamp is strictly greater than the
60-second cooldown; when it fires the send is recorded; the first call fires,
a second attempt 10 seconds later is suppressed, and an attempt after 61
seconds elapsed fires again. -/
theorem high_latency_gate_spec (last : Option Int) (now t : Int) :
    ((high_latency_gate last now).1 = true ↔
      last = none ∨ ∃ l, last = some l ∧ 60 < now - l) ∧
    ((high_latency_gate last now).1 = true →
      (high_latency_gate last now).2 = some now) ∧
    high_latency_gate none t = (true, some t) ∧
    (high_latency_gate (some t) (t + 10)).1 = false ∧
    (high_latency_gate (some t) (t + 61)).1 = true := by
  refine ⟨?_, ?_, rfl, ?_, ?_⟩
  · cases last with
    | none => simp [high_latency_gate]
    | some l => simp [high_latency_gate]
  · intro hfire
    have hsnd : (high_latency_gate last now).2 =
        if (high_latency_gate last now).1 = true then some now
        else last := rfl
    rw [hsnd, if_pos hfire]
  · have hn : ¬ (60 : Int) < t + 10 - t := by omega
    simp [high_latency_gate, hn]
  · have hy : (60 : Int) < t + 61 - t := by omega
    simp [high_latency_gate, hy]

/-- Witness for C7's amended theorem: with the last send at 0 and an attempt
at 100 (more than 60 seconds later), the gate fires and records time 100. -/
theorem high_latency_gate_spec_witness :
    (high_latency_gate (some 0) 100).2 = some 100 :=
  (high_latency_gate_spec (some 0) 100 0).2.1 (by decide)

/-- detect_network_change: classify the difference between the previous and
current IpInfo in fixed order — country_code first, then ip, then isp — and
build the event with previous, current, the current time and is_expected set
from is_manual. -/
def detect_network_change (prev current : IpInfo) (is_manual : Bool)
    (now : Int) : Option NetworkChangeEvent :=
  if prev.country_code ≠ current.country_code then
    some ⟨.CountryChanged, some prev, current, now, is_manual⟩
  else if prev.ip ≠ current.ip then
    some ⟨.IpChanged, some prev, current, now, is_manual⟩
  else if prev.isp ≠ current.isp then
    some ⟨.IspChanged, some prev, current, now, is_manual⟩
  else none

/-- C8: classification precedence with the first match winning — a differing
country_code yields CountryChanged whatever the other fields (so a
simultaneous country and IP change reports only CountryChanged); with equal
country codes, a differing ip yields IpChanged; with equal country codes and
ips, a differing isp yields IspChanged; otherwise, identical IpInfo included,
no event is produced. -/
theorem detect_network_change_spec (prev current : IpInfo) (m : Bool)
    (now : Int) :
    (prev.country_code ≠ current.country_code →
      detect_network_change prev current m now =
        some ⟨.CountryChanged, some prev, current, now, m⟩) ∧
    (prev.country_code = current.country_code → prev.ip ≠ current.ip →
      detect_network_change prev current m now =
        some ⟨.IpChanged, some prev, current, now, m⟩) ∧
    (prev.country_code = current.country_code → prev.ip = current.ip →
      prev.isp ≠ current.isp →
      detect_network_change prev current m now =
        some ⟨.IspChanged, some prev, current, now, m⟩) ∧
    (prev.country_code = current.country_code → prev.ip = current.ip →
      prev.isp = current.isp → detect_network_change prev current m now = none) ∧
    (prev = current → detect_network_change prev current m now = none) := by
  refine ⟨fun h1 => by simp [detect_network_change, h1],
    fun h1 h2 => by simp [detect_network_change, h1, h2],
    fun h1 h2 h3 => by simp [detect_network_change, h1, h2, h3],
    fun h1 h2 h3 => by simp [detect_network_change, h1, h2, h3],
    fun h => by simp [detect_network_change, h]⟩

/-- Witness for C8: a simultaneous IP and country change
({ip 1.1.1.1, country US} to {ip 2.2.2.2, country DE}) is classified as
CountryChanged only. -/
theorem detect_network_change_spec_witness :
    detect_network_change ⟨"1.1.1.1", "United States", "US", none, none⟩
        ⟨"2.2.2.2", "Germany", "DE", none, none⟩ false 0 =
      some ⟨.CountryChanged,
        some ⟨"1.1.1.1", "United States", "US", none, none⟩,
        ⟨"2.2.2.2", "Germany", "DE", none, none⟩, 0, false⟩ :=
  (detect_network_change_spec ⟨"1.1.1.1", "United States", "US", none, none⟩
    ⟨"2.2.2.2", "Germany", "DE", none, none⟩ false 0).1 (by decide)

end Pingzilla
